import Mathlib

/-!
Verification of the notebook
`07. Training Neural Networks in PyTorch-checkpoint.ipynb`.

The repository consists of a single Jupyter notebook (plus a readme).  We
embed the notebook shallowly:

* the Python code of every code cell is transcribed into a small Python
  statement/expression AST (`PyExpr`, `PyStmt`, `Cell`), faithful to the
  source statement by statement;
* the recorded cell outputs are embedded by their output kinds, and the
  numeric values printed by the training cell and the weight-update cells
  are embedded as exact rationals;
* the training loop's run-time behaviour is embedded as an operational
  semantics (`runEpoch`, `trainLoop`) in which the PyTorch forward /
  backward / optimizer-step calls are abstracted into a step function,
  since they are external library code;
* the SGD update rule and the log-softmax layer, which live in the external
  library, are modelled from the spec as `sgdStep` and `logSoftmax`.
-/

namespace PyNb

/-- Python expressions, as they occur in the notebook's code cells. -/
inductive PyExpr where
  | name (s : String)
  | num (q : ℚ)
  | str (s : String)
  | bool (b : Bool)
  | attr (obj : PyExpr) (field : String)
  | call (f : PyExpr) (args : List PyExpr)
  | kwarg (key : String) (value : PyExpr)
  | binop (op : String) (a b : PyExpr)
  | tuple (elems : List PyExpr)
  | list (elems : List PyExpr)
  | index (obj : PyExpr) (i : PyExpr)
  | fstring (parts : List PyExpr)
deriving Repr

/-- Python statements, as they occur in the notebook's code cells.  The
constructors `tryS`, `ifS`, `whileS` and `raiseS` never occur in the
transcription: they are present so that "the notebook contains no
exception handler / input check / retry loop" is a property of the data
rather than of the type. -/
inductive PyStmt where
  | importS (module : String)
  | fromImport (module : String) (names : List String)
  | assign (targets : List String) (rhs : PyExpr)
  | augAdd (target : String) (rhs : PyExpr)
  | exprS (e : PyExpr)
  | forIn (targets : List String) (iterable : PyExpr)
      (body : List PyStmt) (orelse : List PyStmt)
  | withS (ctx : PyExpr) (body : List PyStmt)
  | magic (s : String)
  | tryS (body : List PyStmt) (handlers : List PyStmt)
  | ifS (cond : PyExpr) (thenB : List PyStmt) (elseB : List PyStmt)
  | whileS (cond : PyExpr) (body : List PyStmt)
  | raiseS (e : PyExpr)
deriving Repr

/-- The output kinds a Jupyter cell can record. -/
inductive OutKind where
  | stream
  | displayData
  | executeResult
  | error
deriving Repr, DecidableEq

/-- A notebook cell: markdown, or code with its statements and recorded
output kinds. -/
inductive Cell where
  | markdown
  | code (source : List PyStmt) (outputs : List OutKind)
deriving Repr

end PyNb

namespace PyNb

open PyExpr PyStmt

/-- Code cell 1 (execution count 1): imports, the normalizing transform,
the MNIST dataset and the `DataLoader`. -/
def cellImports : List PyStmt :=
  [ importS "torch",
    fromImport "torch" ["nn"],
    importS "torch.nn.functional",
    fromImport "torchvision" ["datasets", "transforms"],
    assign ["transform"]
      (call (attr (name "transforms") "Compose")
        [list
          [ call (attr (name "transforms") "ToTensor") [],
            call (attr (name "transforms") "Normalize")
              [ tuple [num (1/2), num (1/2), num (1/2)],
                tuple [num (1/2), num (1/2), num (1/2)] ] ]]),
    assign ["trainset"]
      (call (attr (name "datasets") "MNIST")
        [ str "~/.pytorch/MNIST_data/",
          kwarg "download" (bool true),
          kwarg "train" (bool true),
          kwarg "transform" (name "transform") ]),
    assign ["trainloader"]
      (call (attr (attr (attr (name "torch") "utils") "data") "DataLoader")
        [ name "trainset",
          kwarg "batch_size" (num 64),
          kwarg "shuffle" (bool true) ]) ]

/-- The five-layer network without the log-softmax output (code cell 2). -/
def seqModelPlain : PyExpr :=
  call (attr (name "nn") "Sequential")
    [ call (attr (name "nn") "Linear") [num 784, num 128],
      call (attr (name "nn") "ReLU") [],
      call (attr (name "nn") "Linear") [num 128, num 64],
      call (attr (name "nn") "ReLU") [],
      call (attr (name "nn") "Linear") [num 64, num 10] ]

/-- The six-layer network ending in `nn.LogSoftmax(dim=1)` (code cells 3,
11 and 16). -/
def seqModelLogSoftmax : PyExpr :=
  call (attr (name "nn") "Sequential")
    [ call (attr (name "nn") "Linear") [num 784, num 128],
      call (attr (name "nn") "ReLU") [],
      call (attr (name "nn") "Linear") [num 128, num 64],
      call (attr (name "nn") "ReLU") [],
      call (attr (name "nn") "Linear") [num 64, num 10],
      call (attr (name "nn") "LogSoftmax") [kwarg "dim" (num 1)] ]

/-- `images, labels = next(iter(trainloader))`, the batch-fetching
statement repeated through the notebook. -/
def fetchBatch : PyStmt :=
  assign ["images", "labels"]
    (call (name "next") [call (name "iter") [name "trainloader"]])

/-- `images = images.view(images.shape[0], -1)`, the flattening statement. -/
def flattenImages : PyStmt :=
  assign ["images"]
    (call (attr (name "images") "view")
      [index (attr (name "images") "shape") (num 0), num (-1)])

/-- Code cell 2 (execution count 2): cross-entropy loss on logits. -/
def cellCrossEntropy : List PyStmt :=
  [ assign ["model"] seqModelPlain,
    assign ["criterion"] (call (attr (name "nn") "CrossEntropyLoss") []),
    fetchBatch,
    flattenImages,
    assign ["logits"] (call (name "model") [name "images"]),
    assign ["loss"] (call (name "criterion") [name "logits", name "labels"]),
    exprS (call (name "print") [name "loss"]) ]

/-- Code cell 3 (execution count 3): negative log likelihood loss on
log-probabilities. -/
def cellNLL : List PyStmt :=
  [ assign ["model"] seqModelLogSoftmax,
    assign ["criterion"] (call (attr (name "nn") "NLLLoss") []),
    fetchBatch,
    flattenImages,
    assign ["logps"] (call (name "model") [name "images"]),
    assign ["loss"] (call (name "criterion") [name "logps", name "labels"]),
    exprS (call (name "print") [name "loss"]) ]

/-- Code cell 4 (execution count 4): `x = torch.randn(2,2, requires_grad=True)`. -/
def cellRandn : List PyStmt :=
  [ assign ["x"]
      (call (attr (name "torch") "randn")
        [num 2, num 2, kwarg "requires_grad" (bool true)]),
    exprS (call (name "print") [name "x"]) ]

/-- Code cell 5 (execution count 5): `y = x**2`. -/
def cellSquare : List PyStmt :=
  [ assign ["y"] (binop "**" (name "x") (num 2)),
    exprS (call (name "print") [name "y"]) ]

/-- Code cell 6 (execution count 6): `print(y.grad_fn)`. -/
def cellGradFn : List PyStmt :=
  [ exprS (call (name "print") [attr (name "y") "grad_fn"]) ]

/-- Code cell 7 (execution count 7): `z = y.mean()`. -/
def cellMean : List PyStmt :=
  [ assign ["z"] (call (attr (name "y") "mean") []),
    exprS (call (name "print") [name "z"]) ]

/-- Code cell 8 (execution count 9): `print(x.grad,y.grad,z.grad)`. -/
def cellEmptyGrads : List PyStmt :=
  [ exprS (call (name "print")
      [attr (name "x") "grad", attr (name "y") "grad", attr (name "z") "grad"]) ]

/-- Code cell 9 (execution count 10): `z.backward()` and the check against
`x/2`. -/
def cellScalarBackward : List PyStmt :=
  [ exprS (call (attr (name "z") "backward") []),
    exprS (call (name "print") [attr (name "x") "grad"]),
    exprS (call (name "print") [binop "/" (name "x") (num 2)]) ]

/-- Code cell 10 (execution count 11): fresh log-softmax network, NLL loss
on one batch (the "Loss and Autograd together" cell). -/
def cellLossAutograd : List PyStmt :=
  [ assign ["model"] seqModelLogSoftmax,
    assign ["criterion"] (call (attr (name "nn") "NLLLoss") []),
    fetchBatch,
    flattenImages,
    assign ["logits"] (call (name "model") [name "images"]),
    assign ["loss"] (call (name "criterion") [name "logits", name "labels"]) ]

/-- Code cell 11 (execution count 12): the first-layer weight gradient
before and after `loss.backward()`. -/
def cellBackwardPass : List PyStmt :=
  [ exprS (call (name "print")
      [ str "Before backward pass: \n",
        attr (attr (index (name "model") (num 0)) "weight") "grad" ]),
    exprS (call (attr (name "loss") "backward") []),
    exprS (call (name "print")
      [ str "After backward pass: \n",
        attr (attr (index (name "model") (num 0)) "weight") "grad" ]) ]

/-- Code cell 12 (execution count 13): `optimizer = optim.SGD(model.parameters(), lr=0.01)`. -/
def cellOptimizer : List PyStmt :=
  [ fromImport "torch" ["optim"],
    assign ["optimizer"]
      (call (attr (name "optim") "SGD")
        [ call (attr (name "model") "parameters") [],
          kwarg "lr" (num (1/100)) ]) ]

/-- Code cell 13 (execution count 14): one training step up to the
gradient printout. -/
def cellSingleStep : List PyStmt :=
  [ exprS (call (name "print")
      [str "Initial weights - ", attr (index (name "model") (num 0)) "weight"]),
    fetchBatch,
    exprS (call (attr (name "images") "resize_") [num 64, num 784]),
    exprS (call (attr (name "optimizer") "zero_grad") []),
    assign ["output"] (call (name "model") [name "images"]),
    assign ["loss"] (call (name "criterion") [name "output", name "labels"]),
    exprS (call (attr (name "loss") "backward") []),
    exprS (call (name "print")
      [ str "Gradient -",
        attr (attr (index (name "model") (num 0)) "weight") "grad" ]) ]

/-- Code cell 14 (execution count 15): `optimizer.step()` and the updated
weights printout. -/
def cellStep : List PyStmt :=
  [ exprS (call (attr (name "optimizer") "step") []),
    exprS (call (name "print")
      [str "Updated weights - ", attr (index (name "model") (num 0)) "weight"]) ]

/-- The body of the inner `for images, labels in trainloader:` loop of the
final training cell. -/
def trainBody : List PyStmt :=
  [ flattenImages,
    exprS (call (attr (name "optimizer") "zero_grad") []),
    assign ["output"] (call (name "model") [name "images"]),
    assign ["loss"] (call (name "criterion") [name "output", name "labels"]),
    exprS (call (attr (name "loss") "backward") []),
    exprS (call (attr (name "optimizer") "step") []),
    augAdd "running_loss" (call (attr (name "loss") "item") []) ]

/-- The `else:` clause of the inner loop: the once-per-epoch print of the
average training loss. -/
def trainOrelse : List PyStmt :=
  [ exprS (call (name "print")
      [fstring
        [ str "Training loss: ",
          binop "/" (name "running_loss")
            (call (name "len") [name "trainloader"]) ]]) ]

/-- Code cell 15 (execution count 16): the final training cell, five
epochs over the loader. -/
def cellTraining : List PyStmt :=
  [ assign ["model"] seqModelLogSoftmax,
    assign ["criterion"] (call (attr (name "nn") "NLLLoss") []),
    assign ["optimizer"]
      (call (attr (name "optim") "SGD")
        [ call (attr (name "model") "parameters") [],
          kwarg "lr" (num (3/1000)) ]),
    assign ["epochs"] (num 5),
    forIn ["e"] (call (name "range") [name "epochs"])
      [ assign ["running_loss"] (num 0),
        forIn ["images", "labels"] (name "trainloader") trainBody trainOrelse ]
      [] ]

/-- Code cell 16 (execution count 18): the prediction / plotting cell. -/
def cellPredict : List PyStmt :=
  [ magic "matplotlib inline",
    importS "helper",
    fetchBatch,
    assign ["img"]
      (call (attr (index (name "images") (num 0)) "view") [num 1, num 784]),
    withS (call (attr (name "torch") "no_grad") [])
      [ assign ["logps"] (call (name "model") [name "img"]) ],
    assign ["ps"] (call (attr (name "torch") "exp") [name "logps"]),
    exprS (call (attr (name "helper") "view_classify")
      [ call (attr (name "img") "view") [num 1, num 28, num 28],
        name "ps" ]) ]

/-- The whole notebook, cells in document order, each code cell with its
recorded output kinds. -/
def notebook : List Cell :=
  [ Cell.markdown,
    Cell.code cellImports [],
    Cell.markdown,
    Cell.code cellCrossEntropy [OutKind.stream],
    Cell.markdown,
    Cell.code cellNLL [OutKind.stream],
    Cell.markdown,
    Cell.code cellRandn [OutKind.stream],
    Cell.code cellSquare [OutKind.stream],
    Cell.markdown,
    Cell.code cellGradFn [OutKind.stream],
    Cell.markdown,
    Cell.code cellMean [OutKind.stream],
    Cell.markdown,
    Cell.code cellEmptyGrads [OutKind.stream],
    Cell.markdown,
    Cell.code cellScalarBackward [OutKind.stream],
    Cell.markdown,
    Cell.markdown,
    Cell.code cellLossAutograd [],
    Cell.code cellBackwardPass [OutKind.stream],
    Cell.markdown,
    Cell.code cellOptimizer [],
    Cell.markdown,
    Cell.code cellSingleStep [OutKind.stream],
    Cell.code cellStep [OutKind.stream],
    Cell.markdown,
    Cell.code cellTraining [OutKind.stream],
    Cell.markdown,
    Cell.code cellPredict [OutKind.displayData],
    Cell.markdown ]

/-! ### Structural predicates over the AST -/

mutual

/-- All statements of a statement, in pre-order: the statement itself
followed by the statements of its nested bodies. -/
def stmtFlat : PyStmt → List PyStmt
  | PyStmt.forIn ts it body orelse =>
      PyStmt.forIn ts it body orelse :: (stmtsFlat body ++ stmtsFlat orelse)
  | PyStmt.withS ctx body => PyStmt.withS ctx body :: stmtsFlat body
  | PyStmt.tryS body handlers =>
      PyStmt.tryS body handlers :: (stmtsFlat body ++ stmtsFlat handlers)
  | PyStmt.ifS c a b => PyStmt.ifS c a b :: (stmtsFlat a ++ stmtsFlat b)
  | PyStmt.whileS c body => PyStmt.whileS c body :: stmtsFlat body
  | s => [s]

/-- Pre-order flattening of a statement list. -/
def stmtsFlat : List PyStmt → List PyStmt
  | [] => []
  | s :: rest => stmtFlat s ++ stmtsFlat rest

end

/-- The statements of a cell (markdown cells have none). -/
def cellStmts : Cell → List PyStmt
  | Cell.markdown => []
  | Cell.code src _ => src

/-- The recorded output kinds of a cell. -/
def cellOuts : Cell → List OutKind
  | Cell.markdown => []
  | Cell.code _ outs => outs

/-- Every statement of every code cell of the notebook, in document order,
nested loop/with bodies included. -/
def allStmts : List PyStmt := stmtsFlat ((notebook.map cellStmts).flatten)

/-- Every recorded output kind of every cell of the notebook. -/
def allOuts : List OutKind := (notebook.map cellOuts).flatten

mutual

/-- Does the expression mention the identifier `f`, as a bare name or as
an attribute field, anywhere inside it? -/
def exprMentions (f : String) : PyExpr → Bool
  | PyExpr.name s => s == f
  | PyExpr.num _ => false
  | PyExpr.str _ => false
  | PyExpr.bool _ => false
  | PyExpr.attr o fld => fld == f || exprMentions f o
  | PyExpr.call fn args => exprMentions f fn || exprsMention f args
  | PyExpr.kwarg _ v => exprMentions f v
  | PyExpr.binop _ a b => exprMentions f a || exprMentions f b
  | PyExpr.tuple es => exprsMention f es
  | PyExpr.list es => exprsMention f es
  | PyExpr.index o i => exprMentions f o || exprMentions f i
  | PyExpr.fstring ps => exprsMention f ps

/-- Does any expression of the list mention the identifier `f`? -/
def exprsMention (f : String) : List PyExpr → Bool
  | [] => false
  | e :: es => exprMentions f e || exprsMention f es

end

/-- The expressions occurring directly in a statement (bodies of compound
statements are reached through `stmtsFlat`). -/
def stmtExprs : PyStmt → List PyExpr
  | PyStmt.importS _ => []
  | PyStmt.fromImport _ _ => []
  | PyStmt.assign _ rhs => [rhs]
  | PyStmt.augAdd _ rhs => [rhs]
  | PyStmt.exprS e => [e]
  | PyStmt.forIn _ it _ _ => [it]
  | PyStmt.withS ctx _ => [ctx]
  | PyStmt.magic _ => []
  | PyStmt.tryS _ _ => []
  | PyStmt.ifS c _ _ => [c]
  | PyStmt.whileS c _ => [c]
  | PyStmt.raiseS e => [e]

/-- Does any expression of any statement of the notebook mention the
identifier `f`? -/
def notebookMentions (f : String) : Bool :=
  allStmts.any (fun s => exprsMention f (stmtExprs s))

/-- Is the statement an exception handler (`try`/`except`)? -/
def isExceptionHandler : PyStmt → Bool
  | PyStmt.tryS _ _ => true
  | _ => false

/-- Is the statement an input check (`if`) or a `raise`? -/
def isInputCheck : PyStmt → Bool
  | PyStmt.ifS _ _ _ => true
  | PyStmt.raiseS _ => true
  | _ => false

/-- Is the statement a retry loop (`while`)? -/
def isRetryLoop : PyStmt → Bool
  | PyStmt.whileS _ _ => true
  | _ => false

/-- The five training-pass steps the spec names. -/
inductive StepKind where
  | zeroGrad
  | forward
  | lossComp
  | backward
  | optStep
deriving Repr, DecidableEq

/-- Classify a statement as one of the five named training steps:
`optimizer.zero_grad()`, `output = model(images)`,
`loss = criterion(output, labels)`, `loss.backward()`,
`optimizer.step()`. -/
def classifyStep : PyStmt → Option StepKind
  | PyStmt.exprS (PyExpr.call (PyExpr.attr (PyExpr.name "optimizer") "zero_grad") []) =>
      some StepKind.zeroGrad
  | PyStmt.assign _ (PyExpr.call (PyExpr.name "model") _) => some StepKind.forward
  | PyStmt.assign _ (PyExpr.call (PyExpr.name "criterion") _) => some StepKind.lossComp
  | PyStmt.exprS (PyExpr.call (PyExpr.attr (PyExpr.name "loss") "backward") []) =>
      some StepKind.backward
  | PyStmt.exprS (PyExpr.call (PyExpr.attr (PyExpr.name "optimizer") "step") []) =>
      some StepKind.optStep
  | _ => none

/-- Is the statement one of the five named training steps? -/
def isTrainStep (s : PyStmt) : Bool := (classifyStep s).isSome

/-- Is the statement a library tensor reshape
(`images = images.view(...)` or `images.resize_(...)`)? -/
def isTensorReshape : PyStmt → Bool
  | PyStmt.assign _ (PyExpr.call (PyExpr.attr _ "view") _) => true
  | PyStmt.exprS (PyExpr.call (PyExpr.attr _ "resize_") _) => true
  | _ => false

/-- Is the statement the running-loss bookkeeping
`running_loss += loss.item()`? -/
def isLossBookkeeping : PyStmt → Bool
  | PyStmt.augAdd "running_loss"
      (PyExpr.call (PyExpr.attr (PyExpr.name "loss") "item") []) => true
  | _ => false

/-- The bodies of the `for e in range(epochs):` loops occurring at top
level in a cell. -/
def epochLoopBodies (cell : List PyStmt) : List (List PyStmt) :=
  cell.filterMap fun s =>
    match s with
    | PyStmt.forIn ["e"] (PyExpr.call (PyExpr.name "range") [PyExpr.name "epochs"])
        outerBody [] => some outerBody
    | _ => none

/-- The (body, else-clause) pairs of the `for images, labels in
trainloader:` loops occurring in a statement list. -/
def loaderLoopParts (stmts : List PyStmt) : List (List PyStmt × List PyStmt) :=
  stmts.filterMap fun t =>
    match t with
    | PyStmt.forIn ["images", "labels"] (PyExpr.name "trainloader") b o => some (b, o)
    | _ => none

/-- The (body, else-clause) pairs of the batch loops nested inside the
epoch loops of a cell. -/
def epochLoopInner (cell : List PyStmt) : List (List PyStmt × List PyStmt) :=
  ((epochLoopBodies cell).map loaderLoopParts).flatten

/-- Data loading: constructing the MNIST dataset or its `DataLoader`. -/
def isDataLoadStmt : PyStmt → Bool
  | PyStmt.assign _ (PyExpr.call (PyExpr.attr (PyExpr.name "datasets") "MNIST") _) => true
  | PyStmt.assign _ (PyExpr.call
      (PyExpr.attr (PyExpr.attr (PyExpr.attr (PyExpr.name "torch") "utils") "data")
        "DataLoader") _) => true
  | _ => false

/-- Model definition: assigning an `nn.Sequential(...)` stack. -/
def isModelDefStmt : PyStmt → Bool
  | PyStmt.assign _ (PyExpr.call (PyExpr.attr (PyExpr.name "nn") "Sequential") _) => true
  | _ => false

/-- Loss evaluation: applying the library criterion. -/
def isLossEvalStmt : PyStmt → Bool
  | PyStmt.assign _ (PyExpr.call (PyExpr.name "criterion") _) => true
  | _ => false

/-- Gradient computation: a `.backward()` call. -/
def isGradCompStmt : PyStmt → Bool
  | PyStmt.exprS (PyExpr.call (PyExpr.attr _ "backward") _) => true
  | _ => false

/-- Parameter update: `optimizer.step()`. -/
def isParamUpdateStmt : PyStmt → Bool
  | PyStmt.exprS (PyExpr.call (PyExpr.attr (PyExpr.name "optimizer") "step") _) => true
  | _ => false

/-- Plotting one prediction: `helper.view_classify(...)`. -/
def isPlotStmt : PyStmt → Bool
  | PyStmt.exprS (PyExpr.call (PyExpr.attr (PyExpr.name "helper") "view_classify") _) => true
  | _ => false

/-- A consumption site of the training loader: either
`... = next(iter(trainloader))` or `for ... in trainloader:`. -/
def isLoaderConsumption : PyStmt → Bool
  | PyStmt.assign _ (PyExpr.call (PyExpr.name "next")
      [PyExpr.call (PyExpr.name "iter") [PyExpr.name "trainloader"]]) => true
  | PyStmt.forIn _ (PyExpr.name "trainloader") _ _ => true
  | _ => false

/-- The unpacking targets of an assignment or a `for` statement. -/
def unpackTargets : PyStmt → List String
  | PyStmt.assign ts _ => ts
  | PyStmt.forIn ts _ _ _ => ts
  | _ => []

/-! ### Recorded outputs of the training cell and the single-step cells -/

/-- The five `Training loss:` values recorded in the output of the final
training cell, as exact rationals, in printed order. -/
def printedLosses : List ℚ :=
  [ 1.8482103443094917,
    0.7881349392219393,
    0.5054461888349386,
    0.4187001598033824,
    0.3776651714672285 ]

/-- The visible entries of row 1 of `model[0].weight` recorded by the
"Initial weights" printout of the single-step cell (the middle columns
are elided in the record). -/
def initialWeightRow1 : List ℚ :=
  [ 0.016061, -0.00034652, 0.035134, -0.00081569, -0.017934, 0.017322 ]

/-- The visible entries of row 2 of the recorded "Initial weights"
printout. -/
def initialWeightRow2 : List ℚ :=
  [ 0.034780, 0.0060498, -0.00093213, -0.0072209, -0.0075657, 0.013878 ]

/-- The visible entries of row 1 of the recorded `Gradient -` printout:
all zero. -/
def gradientRow1 : List ℚ := [ 0, 0, 0, 0, 0, 0 ]

/-- The visible entries of row 2 of the recorded `Gradient -` printout:
all zero. -/
def gradientRow2 : List ℚ := [ 0, 0, 0, 0, 0, 0 ]

/-- The visible entries of row 1 of the recorded `Updated weights`
printout after `optimizer.step()`. -/
def updatedWeightRow1 : List ℚ :=
  [ 0.016061, -0.00034652, 0.035134, -0.00081569, -0.017934, 0.017322 ]

/-- The visible entries of row 2 of the recorded `Updated weights`
printout after `optimizer.step()`. -/
def updatedWeightRow2 : List ℚ :=
  [ 0.034780, 0.0060498, -0.00093213, -0.0072209, -0.0075657, 0.013878 ]

/-- The values assigned to the variable `epochs` in a cell. -/
def epochsAssignments (cell : List PyStmt) : List ℚ :=
  cell.filterMap fun s =>
    match s with
    | PyStmt.assign ["epochs"] (PyExpr.num q) => some q
    | _ => none

/-- The right-hand sides assigned to the variable `model` in a cell. -/
def modelAssignments (cell : List PyStmt) : List PyExpr :=
  cell.filterMap fun s =>
    match s with
    | PyStmt.assign ["model"] e => some e
    | _ => none

/-- The right-hand sides assigned to the variable `ps` in a cell. -/
def psAssignments (cell : List PyStmt) : List PyExpr :=
  cell.filterMap fun s =>
    match s with
    | PyStmt.assign ["ps"] e => some e
    | _ => none

end PyNb

/-! ### Operational semantics of the training loop

The final training cell's loop, with the library calls (forward pass,
loss, backward pass, optimizer step) abstracted into one step function
`f : M → I → L → M × ℚ` taking the model state and the unpacked
`(images, labels)` batch to the updated model state and the value of
`loss.item()`. -/

namespace TrainSem

variable {M I L : Type}

/-- One pass of the inner loop body on one batch: run the training step on
the unpacked pair and add `loss.item()` to the running loss. -/
def epochStep (f : M → I → L → M × ℚ) (s : M × ℚ) (b : I × L) : M × ℚ :=
  ((f s.1 b.1 b.2).1, s.2 + (f s.1 b.1 b.2).2)

/-- One epoch: `running_loss = 0` followed by the inner
`for images, labels in trainloader:` loop over all batches. -/
def runEpoch (f : M → I → L → M × ℚ) (m : M) (bs : List (I × L)) : M × ℚ :=
  bs.foldl (epochStep f) (m, 0)

/-- The outer `for e in range(epochs):` loop.  After each epoch the else
clause prints `running_loss / len(trainloader)`; the returned list holds
the printed values in order. -/
def trainLoop (f : M → I → L → M × ℚ) (bs : List (I × L)) : M → ℕ → M × List ℚ
  | m, 0 => (m, [])
  | m, n + 1 =>
      ((trainLoop f bs (runEpoch f m bs).1 n).1,
        (runEpoch f m bs).2 / (bs.length : ℚ)
          :: (trainLoop f bs (runEpoch f m bs).1 n).2)

/-- The model state after `e` completed epochs. -/
def modelAfter (f : M → I → L → M × ℚ) (bs : List (I × L)) (m : M) : ℕ → M
  | 0 => m
  | e + 1 => (runEpoch f (modelAfter f bs m e) bs).1

/-- The `loss.item()` values produced batch by batch during one epoch
starting from model state `m`. -/
def batchLosses (f : M → I → L → M × ℚ) : M → List (I × L) → List ℚ
  | _, [] => []
  | m, b :: bs => (f m b.1 b.2).2 :: batchLosses f (f m b.1 b.2).1 bs

/-- The batches visited, in order, by one epoch starting from model state
`m`. -/
def epochVisited (f : M → I → L → M × ℚ) : M → List (I × L) → List (I × L)
  | _, [] => []
  | m, b :: bs => b :: epochVisited f (f m b.1 b.2).1 bs

end TrainSem

/-! ### The SGD update rule, modelled from the spec -/

namespace SGDModel

/-- Modelled from the spec: the external library's plain SGD update
(`optim.SGD`, no momentum) on one row of a weight tensor — each entry
becomes `weight - lr * gradient`.  `optim.SGD` itself is library code,
absent from the repository. -/
def sgdStep (lr : ℚ) (w g : List ℚ) : List ℚ :=
  List.zipWith (fun wi gi => wi - lr * gi) w g

/-- `sgdStep` rowwise on a weight matrix. -/
def sgdStepMat (lr : ℚ) (w g : List (List ℚ)) : List (List ℚ) :=
  List.zipWith (sgdStep lr) w g

end SGDModel

/-! ### The trained network, modelled from the spec over ℝ

The layers `nn.Linear`, `nn.ReLU` and `nn.LogSoftmax(dim=1)` are external
library code; they are modelled here by their documented real-valued
semantics, and the network of the final training cell is their
composition in the order the cell stacks them. -/

namespace NetModel

noncomputable section

/-- Modelled from the spec: `nn.Linear(n, m)` — the affine map
`x ↦ W x + b`. -/
def linearLayer {n m : ℕ} (w : Fin m → Fin n → ℝ) (b : Fin m → ℝ)
    (x : Fin n → ℝ) : Fin m → ℝ :=
  fun i => (∑ j, w i j * x j) + b i

/-- Modelled from the spec: `nn.ReLU()` — elementwise `max(x, 0)`. -/
def reluLayer {n : ℕ} (x : Fin n → ℝ) : Fin n → ℝ :=
  fun i => max (x i) 0

/-- Modelled from the spec: `nn.LogSoftmax(dim=1)` applied to one row —
`x i - log (∑ j, exp (x j))`. -/
def logSoftmax {n : ℕ} (x : Fin n → ℝ) : Fin n → ℝ :=
  fun i => x i - Real.log (∑ j, Real.exp (x j))

/-- The network of the final training cell on one flattened image:
`Linear(784,128) → ReLU → Linear(128,64) → ReLU → Linear(64,10) →
LogSoftmax(dim=1)`. -/
def modelForward (w1 : Fin 128 → Fin 784 → ℝ) (b1 : Fin 128 → ℝ)
    (w2 : Fin 64 → Fin 128 → ℝ) (b2 : Fin 64 → ℝ)
    (w3 : Fin 10 → Fin 64 → ℝ) (b3 : Fin 10 → ℝ)
    (x : Fin 784 → ℝ) : Fin 10 → ℝ :=
  logSoftmax
    (linearLayer w3 b3
      (reluLayer
        (linearLayer w2 b2
          (reluLayer
            (linearLayer w1 b1 x)))))

/-- `model(images)` on a batch of `k` flattened images: the network
applied row by row, as `nn.Sequential` does with `dim=1`. -/
def modelBatch {k : ℕ} (w1 : Fin 128 → Fin 784 → ℝ) (b1 : Fin 128 → ℝ)
    (w2 : Fin 64 → Fin 128 → ℝ) (b2 : Fin 64 → ℝ)
    (w3 : Fin 10 → Fin 64 → ℝ) (b3 : Fin 10 → ℝ)
    (images : Fin k → Fin 784 → ℝ) : Fin k → Fin 10 → ℝ :=
  fun r => modelForward w1 b1 w2 b2 w3 b3 (images r)

end

end NetModel

/-! ### Helper lemmas about the training-loop semantics -/

namespace TrainSem

variable {M I L : Type}

/-- Folding the epoch step from running loss `r` ends in the same model
state as from `0` and adds the losses of the batches to `r`. -/
lemma foldl_epochStep (f : M → I → L → M × ℚ) :
    ∀ (bs : List (I × L)) (m : M) (r : ℚ),
      bs.foldl (epochStep f) (m, r) = ((runEpoch f m bs).1, r + (batchLosses f m bs).sum) := by
  intro bs
  induction bs with
  | nil => intro m r; simp [runEpoch, batchLosses]
  | cons b bs ih =>
    intro m r
    have h1 : (b :: bs).foldl (epochStep f) (m, r)
        = bs.foldl (epochStep f) ((f m b.1 b.2).1, r + (f m b.1 b.2).2) := rfl
    have h2 : runEpoch f m (b :: bs)
        = bs.foldl (epochStep f) ((f m b.1 b.2).1, 0 + (f m b.1 b.2).2) := rfl
    rw [h1, ih, h2, ih]
    simp [batchLosses, add_assoc]

/-- The running loss accumulated by one epoch is the sum of the
per-batch `loss.item()` values of that epoch. -/
lemma runEpoch_snd (f : M → I → L → M × ℚ) (m : M) (bs : List (I × L)) :
    (runEpoch f m bs).2 = (batchLosses f m bs).sum := by
  conv_lhs => rw [runEpoch, foldl_epochStep f bs m 0]
  simp

/-- Starting the epoch count after one completed epoch shifts
`modelAfter` by one. -/
lemma modelAfter_shift (f : M → I → L → M × ℚ) (bs : List (I × L)) (m : M) :
    ∀ e, modelAfter f bs ((runEpoch f m bs).1) e = modelAfter f bs m (e + 1) := by
  intro e
  induction e with
  | zero => rfl
  | succ k ih => simp only [modelAfter, ih]

/-- The values printed by the training loop: for each epoch `e`, the sum
of that epoch's batch losses divided by the number of batches. -/
lemma trainLoop_snd (f : M → I → L → M × ℚ) (bs : List (I × L)) :
    ∀ (n : ℕ) (m : M),
      (trainLoop f bs m n).2 =
        (List.range n).map
          (fun e => (batchLosses f (modelAfter f bs m e) bs).sum / (bs.length : ℚ)) := by
  intro n
  induction n with
  | zero => intro m; rfl
  | succ k ih =>
    intro m
    rw [List.range_succ_eq_map, List.map_cons, List.map_map]
    show ((runEpoch f m bs).2 / (bs.length : ℚ))
        :: (trainLoop f bs (runEpoch f m bs).1 k).2 = _
    rw [ih]
    congr 1
    · rw [runEpoch_snd]; rfl
    · have hfun : (fun e =>
          (batchLosses f (modelAfter f bs (runEpoch f m bs).1 e) bs).sum / (bs.length : ℚ))
          = (fun e => (batchLosses f (modelAfter f bs m e) bs).sum / (bs.length : ℚ))
              ∘ Nat.succ := by
        funext e
        simp [Function.comp, modelAfter_shift]
      rw [hfun]

/-- The training loop prints exactly one value per epoch. -/
lemma trainLoop_length (f : M → I → L → M × ℚ) (bs : List (I × L)) :
    ∀ (n : ℕ) (m : M), (trainLoop f bs m n).2.length = n := by
  intro n
  induction n with
  | zero => intro m; rfl
  | succ k ih => intro m; simp [trainLoop, ih]

/-- One epoch visits exactly the loader's batch list, in order. -/
lemma epochVisited_eq (f : M → I → L → M × ℚ) :
    ∀ (bs : List (I × L)) (m : M), epochVisited f m bs = bs := by
  intro bs
  induction bs with
  | nil => intro m; rfl
  | cons b bs ih => intro m; simp [epochVisited, ih]

/-- One epoch produces exactly one `loss.item()` value per batch. -/
lemma batchLosses_length (f : M → I → L → M × ℚ) :
    ∀ (bs : List (I × L)) (m : M), (batchLosses f m bs).length = bs.length := by
  intro bs
  induction bs with
  | nil => intro m; rfl
  | cons b bs ih => intro m; simp [batchLosses, ih]

end TrainSem

namespace NetModel

/-- Exponentiating a log-softmax output gives values summing to 1. -/
lemma sum_exp_logSoftmax {n : ℕ} [NeZero n] (x : Fin n → ℝ) :
    ∑ i, Real.exp (logSoftmax x i) = 1 := by
  have hne : (Finset.univ : Finset (Fin n)).Nonempty :=
    ⟨⟨0, Nat.pos_of_ne_zero (NeZero.ne n)⟩, Finset.mem_univ _⟩
  have hS : 0 < ∑ j, Real.exp (x j) :=
    Finset.sum_pos (fun j _ => Real.exp_pos _) hne
  simp only [logSoftmax, Real.exp_sub, Real.exp_log hS]
  rw [← Finset.sum_div, div_self (ne_of_gt hS)]

end NetModel

/-- Entrywise description of `List.zipWith` through `getD`. -/
lemma getD_zipWith (f : ℚ → ℚ → ℚ) :
    ∀ (w g : List ℚ) (i : ℕ), i < w.length → i < g.length →
      (List.zipWith f w g).getD i 0 = f (w.getD i 0) (g.getD i 0) := by
  intro w
  induction w with
  | nil => intro g i hw _; simp at hw
  | cons a w ih =>
    intro g i hw hg
    cases g with
    | nil => simp at hg
    | cons b g =>
      cases i with
      | zero => simp
      | succ j =>
        simp only [List.zipWith_cons_cons, List.getD_cons_succ]
        exact ih g j (by simpa using hw) (by simpa using hg)

/-! ### The claims -/

open PyNb TrainSem SGDModel NetModel

/-- C1: In the recorded execution of the final training cell, the five
printed per-epoch training-loss values are strictly decreasing — each
epoch's printed loss is less than the previous epoch's — and no code
cell of the notebook mentions a random-seed setter. -/
theorem printed_losses_strictly_decreasing :
    printedLosses.Chain' (fun a b => b < a)
    ∧ printedLosses.length = 5
    ∧ notebookMentions "manual_seed" = false
    ∧ notebookMentions "seed" = false := by
  refine ⟨?_, rfl, by decide, by decide⟩
  norm_num [printedLosses, List.chain'_cons]

/-- C2: Every iteration of the training loop performs exactly the named
step sequence in order — zero the gradients, forward pass, loss
computation, backward pass, optimizer step — inside the epoch loop; every
other statement of the loop body is a library tensor reshape or the
running-loss bookkeeping, and the training cell contains no exception
handling, input check or retry loop. -/
theorem training_iteration_step_sequence :
    trainBody.filterMap classifyStep =
      [StepKind.zeroGrad, StepKind.forward, StepKind.lossComp,
        StepKind.backward, StepKind.optStep]
    ∧ trainBody.all
        (fun s => isTrainStep s || isTensorReshape s || isLossBookkeeping s) = true
    ∧ (stmtsFlat cellTraining).all
        (fun s => !(isExceptionHandler s || isInputCheck s || isRetryLoop s)) = true
    ∧ epochLoopInner cellTraining = [(trainBody, trainOrelse)] :=
  ⟨rfl, by decide, by decide, rfl⟩

/-- C3: Each iteration of the outer training loop is one epoch — exactly
one full pass over every batch of the loader, producing one loss value
per batch — the loop runs exactly five epochs (`epochs = 5`), and the
recorded output has exactly five training-loss lines, one printed per
epoch. -/
theorem epoch_loop_runs_five_full_passes :
    epochsAssignments cellTraining = [5]
    ∧ printedLosses.length = 5
    ∧ (epochLoopBodies cellTraining).length = 1
    ∧ (∀ (M I L : Type) (f : M → I → L → M × ℚ) (bs : List (I × L)) (m : M) (n : ℕ),
        (trainLoop f bs m n).2.length = n
        ∧ epochVisited f m bs = bs
        ∧ (batchLosses f m bs).length = bs.length) :=
  ⟨rfl, rfl, rfl, fun _ _ _ f bs m n =>
    ⟨trainLoop_length f bs n m, epochVisited_eq f bs m, batchLosses_length f bs m⟩⟩

/-- C4: The notebook's statements follow the stated linear pipeline
order: data loading via the external dataset utility first, then model
definition as an `nn.Sequential` stack, then loss evaluation with the
library criterion, then gradient computation via `.backward()`, then
parameter update via `optimizer.step()`, and finally the
`helper.view_classify` plotting call. -/
theorem notebook_pipeline_order :
    allStmts.any isDataLoadStmt = true
    ∧ allStmts.any isModelDefStmt = true
    ∧ allStmts.any isLossEvalStmt = true
    ∧ allStmts.any isGradCompStmt = true
    ∧ allStmts.any isParamUpdateStmt = true
    ∧ allStmts.any isPlotStmt = true
    ∧ allStmts.findIdx isDataLoadStmt < allStmts.findIdx isModelDefStmt
    ∧ allStmts.findIdx isModelDefStmt < allStmts.findIdx isLossEvalStmt
    ∧ allStmts.findIdx isLossEvalStmt < allStmts.findIdx isGradCompStmt
    ∧ allStmts.findIdx isGradCompStmt < allStmts.findIdx isParamUpdateStmt
    ∧ allStmts.findIdx isParamUpdateStmt < allStmts.findIdx isPlotStmt := by
  decide

/-- C5: In the recorded execution every code cell ran to completion
without raising: every recorded output of every cell is a stream or
display output, and no cell has an error output (there are 13 recorded
outputs in total). -/
theorem recorded_outputs_no_error :
    allOuts.all (fun o => o == OutKind.stream || o == OutKind.displayData) = true
    ∧ allOuts.all (fun o => o != OutKind.error) = true
    ∧ allOuts.length = 13 := by
  decide

/-- C6: No code cell of the notebook introduces validation, retry, or
recovery logic: among all 76 statements of the notebook (nested bodies
included) there is no exception handler, no input check or raise, and no
retry loop. -/
theorem no_validation_retry_or_recovery :
    allStmts.all
      (fun s => !(isExceptionHandler s || isInputCheck s || isRetryLoop s)) = true
    ∧ allStmts.length = 76 := by
  decide

/-- C7: Every place the notebook consumes the training loader — the five
`next(iter(trainloader))` sites and the training `for` loop, six sites in
all — unpacks exactly the pair `(images, labels)`. -/
theorem loader_consumption_unpacks_pairs :
    (allStmts.filter isLoaderConsumption).length = 6
    ∧ allStmts.all
        (fun s => !isLoaderConsumption s || unpackTargets s == ["images", "labels"]) = true := by
  decide

/-- C8: For every epoch, the training loss the loop prints equals the sum
of the per-batch `loss.item()` values of that epoch divided by the number
of batches in the loader; the running sum restarts at the assignment
`running_loss = 0` heading each epoch, and the printing statement is the
single statement of the inner loop's `else` clause. -/
theorem printed_loss_is_epoch_average :
    (∀ (M I L : Type) (f : M → I → L → M × ℚ) (bs : List (I × L)) (m : M) (n : ℕ),
      (trainLoop f bs m n).2 =
        (List.range n).map
          (fun e => (batchLosses f (modelAfter f bs m e) bs).sum / (bs.length : ℚ)))
    ∧ (epochLoopBodies cellTraining).map List.head?
        = [some (PyStmt.assign ["running_loss"] (PyExpr.num 0))]
    ∧ (epochLoopInner cellTraining).map Prod.snd = [trainOrelse] :=
  ⟨fun _ _ _ f bs m n => trainLoop_snd f bs n m, rfl, rfl⟩

/-- C9: Under the plain SGD update with no momentum, every weight entry
whose gradient is zero is left unchanged, and every other entry is
updated to `weight - lr * gradient`; with `lr = 0.01`, the all-zero-
gradient rows 1 and 2 of the first layer's weight matrix recorded by
the single-step cells are identical before and after `optimizer.step()`,
and applying the update to the recorded initial rows reproduces the
recorded updated rows. -/
theorem sgd_step_zero_grad_frame :
    (∀ (lr : ℚ) (w g : List ℚ) (i : ℕ), i < w.length → i < g.length →
      (sgdStep lr w g).getD i 0 = w.getD i 0 - lr * g.getD i 0
      ∧ (g.getD i 0 = 0 → (sgdStep lr w g).getD i 0 = w.getD i 0))
    ∧ updatedWeightRow1 = initialWeightRow1
    ∧ updatedWeightRow2 = initialWeightRow2
    ∧ sgdStep (1/100) initialWeightRow1 gradientRow1 = updatedWeightRow1
    ∧ sgdStep (1/100) initialWeightRow2 gradientRow2 = updatedWeightRow2 := by
  refine ⟨fun lr w g i hw hg => ?_, rfl, rfl, ?_, ?_⟩
  · have h := getD_zipWith (fun wi gi => wi - lr * gi) w g i hw hg
    refine ⟨by simpa [sgdStep] using h, fun h0 => ?_⟩
    simp only [sgdStep] at h ⊢
    rw [h, h0, mul_zero, sub_zero]
  · norm_num [sgdStep, initialWeightRow1, gradientRow1, updatedWeightRow1]
  · norm_num [sgdStep, initialWeightRow2, gradientRow2, updatedWeightRow2]

/-- C9 witness: the SGD frame property applied to a concrete row: entry 0
of `[2, 3]` has gradient 0 in `[0, 1]` and is unchanged by the step. -/
theorem sgd_step_zero_grad_frame_witness :
    (sgdStep (1/100) [(2 : ℚ), 3] [0, 1]).getD 0 0 = 2 :=
  (sgd_step_zero_grad_frame.1 (1/100) [2, 3] [0, 1] 0 (by norm_num) (by norm_num)).2
    (by norm_num)

/-- C10: Because the trained model's final layer is `nn.LogSoftmax(dim=1)`,
for every parameter setting and every input batch, each row of
`torch.exp(model(images))` is nonnegative and sums to 1 over the 10
classes — a probability distribution — and in the source the training
cell's model ends in `LogSoftmax(dim=1)` while the prediction cell passes
`ps = torch.exp(logps)` to `helper.view_classify`. -/
theorem model_output_rows_sum_to_one :
    (∀ {k : ℕ} (w1 : Fin 128 → Fin 784 → ℝ) (b1 : Fin 128 → ℝ)
        (w2 : Fin 64 → Fin 128 → ℝ) (b2 : Fin 64 → ℝ)
        (w3 : Fin 10 → Fin 64 → ℝ) (b3 : Fin 10 → ℝ)
        (images : Fin k → Fin 784 → ℝ) (r : Fin k),
      (∀ i, 0 ≤ Real.exp (modelBatch w1 b1 w2 b2 w3 b3 images r i))
      ∧ ∑ i, Real.exp (modelBatch w1 b1 w2 b2 w3 b3 images r i) = 1)
    ∧ modelAssignments cellTraining = [seqModelLogSoftmax]
    ∧ psAssignments cellPredict
        = [PyExpr.call (PyExpr.attr (PyExpr.name "torch") "exp") [PyExpr.name "logps"]] :=
  ⟨fun _ _ _ _ _ _ _ _ =>
    ⟨fun _ => le_of_lt (Real.exp_pos _), sum_exp_logSoftmax _⟩,
    rfl, rfl⟩


